import Mathlib

/-!
Shallow embedding of the traffic control system core
(source: Software for Traffic Control System.py).

Conventions
* Python floats are modelled as exact rationals (no claim here hinges on
  binary rounding), Python ints as integers, ticks as integers.
* Python dictionaries are modelled as association lists in insertion order
  (as CPython guarantees); the per-sensor history dictionary is modelled as
  a total function from sensor id to the stored list, defaulting to the
  empty list, which absorbs the source's create-key-with-empty-list steps.
* Methods that mutate the receiver become functions returning the updated
  receiver (paired with the Python return value where the method has one).
* Fields of the source dataclasses that no modelled method reads
  (positions, destinations, random-walk bookkeeping) are omitted.
-/

inductive TrafficLightState where
  | RED
  | YELLOW
  | GREEN
  | PRE_GREEN
  | FLASHING_RED
  | FLASHING_YELLOW
  deriving DecidableEq, Repr

inductive VehicleType where
  | CAR
  | JEEP
  | TRUCK
  | BUS
  | MOTORCYCLE
  | EMERGENCY
  | PEDESTRIAN
  deriving DecidableEq, Repr

inductive EmergencyLevel where
  | NONE
  | LOW
  | MEDIUM
  | HIGH
  | CRITICAL
  deriving DecidableEq, Repr

inductive WeatherCondition where
  | CLEAR
  | RAIN
  | SNOW
  | FOG
  | STORM
  | NIGHT
  deriving DecidableEq, Repr

structure Vehicle where
  id : String
  type : VehicleType
  emergency_level : EmergencyLevel
  deriving DecidableEq, Repr

structure TrafficSensor where
  id : String
  vehicle_count : ℤ
  average_speed : ℚ
  queue_length : ℤ
  last_update : ℕ
  is_active : Bool
  deriving DecidableEq, Repr

structure IntersectionConfig where
  id : String
  default_green_time : ℚ
  default_yellow_time : ℚ
  default_pre_green_time : ℚ
  default_red_time : ℚ
  max_green_time : ℚ
  min_green_time : ℚ
  pedestrian_crossing_time : ℚ
  deriving DecidableEq, Repr

/-- Timing dictionary returned by calculate_optimal_timing. -/
structure Timing where
  green : ℚ
  yellow : ℚ
  pre_green : ℚ
  red : ℚ
  deriving DecidableEq, Repr

structure AdvancedTrafficLight where
  intersection_id : String
  config : IntersectionConfig
  current_state : TrafficLightState
  state_start_time : ℤ
  green_time_elapsed : ℚ
  cycle_count : ℕ
  emergency_active : Bool
  last_state_change : ℤ
  adaptation_factor : ℚ
  deriving DecidableEq, Repr

/-- Constructor defaults of AdvancedTrafficLight.__init__. -/
def AdvancedTrafficLight.init (intersection_id : String) (config : IntersectionConfig) :
    AdvancedTrafficLight :=
  { intersection_id := intersection_id
    config := config
    current_state := TrafficLightState.RED
    state_start_time := 0
    green_time_elapsed := 0
    cycle_count := 0
    emergency_active := false
    last_state_change := 0
    adaptation_factor := 1.0 }

def AdvancedTrafficLight.get_current_state_duration (light : AdvancedTrafficLight)
    (current_step : ℤ) : ℚ :=
  ((current_step - light.state_start_time : ℤ) : ℚ)

def AdvancedTrafficLight.change_state (light : AdvancedTrafficLight)
    (new_state : TrafficLightState) (current_step : ℤ) : AdvancedTrafficLight :=
  let light1 := { light with
    current_state := new_state
    state_start_time := current_step
    last_state_change := current_step }
  if light1.current_state = TrafficLightState.GREEN then
    { light1 with green_time_elapsed := 0, cycle_count := light1.cycle_count + 1 }
  else light1

/-- Mean vehicle count across the sensor list (float division in the source). -/
def avg_vehicle_count (sensor_data : List TrafficSensor) : ℚ :=
  (((sensor_data.map fun s => s.vehicle_count).sum : ℤ) : ℚ) / (sensor_data.length : ℚ)

/-- Body of AdvancedTrafficLight.calculate_optimal_timing; the method reads
only self.config and writes only self.emergency_active, so it is embedded as
a function of the config returning the timing dictionary together with the
new value of the emergency_active flag. -/
def AdvancedTrafficLight.calculate_optimal_timing (config : IntersectionConfig)
    (sensor_data : List TrafficSensor) (weather : WeatherCondition)
    (emergency_level : EmergencyLevel) (is_rush_hour : Bool) (is_night : Bool) :
    Timing × Bool :=
  let timing0 : Timing :=
    { green := config.default_green_time
      yellow := config.default_yellow_time
      pre_green := config.default_pre_green_time
      red := config.default_red_time }
  let green1 : ℚ :=
    if emergency_level ≠ EmergencyLevel.NONE then config.min_green_time else timing0.green
  let emergency_active : Bool :=
    if emergency_level ≠ EmergencyLevel.NONE then true else false
  let green2 : ℚ :=
    if sensor_data ≠ [] then
      let g1 := 3.0 + avg_vehicle_count sensor_data * 3.5
      let g2 :=
        if weather = WeatherCondition.RAIN ∨ weather = WeatherCondition.SNOW ∨
            weather = WeatherCondition.STORM then g1 + 4.0
        else g1
      let g3 := if is_rush_hour then g2 * 1.2 else g2
      let g4 := if is_night then g3 * 0.8 else g3
      g4
    else green1
  let green := max config.min_green_time (min config.max_green_time green2)
  ({ timing0 with green := green }, emergency_active)

/-- Mean queue length across the sensor list. -/
def avg_queue_length (sensor_data : List TrafficSensor) : ℚ :=
  (((sensor_data.map fun s => s.queue_length).sum : ℤ) : ℚ) / (sensor_data.length : ℚ)

/-- Source method _update_adaptation_factor (leading underscore dropped). -/
def AdvancedTrafficLight.update_adaptation_factor (light : AdvancedTrafficLight)
    (sensor_data : List TrafficSensor) : AdvancedTrafficLight :=
  if sensor_data = [] then light
  else
    if avg_queue_length sensor_data > 5 then
      { light with adaptation_factor := min 2.0 (light.adaptation_factor + 0.01) }
    else if avg_queue_length sensor_data < 2 then
      { light with adaptation_factor := max 0.5 (light.adaptation_factor - 0.01) }
    else light

def AdvancedTrafficLight.update_state (light : AdvancedTrafficLight) (current_step : ℤ)
    (sensor_data : List TrafficSensor) (weather : WeatherCondition)
    (emergency_level : EmergencyLevel) (power_outage : Bool) (is_scramble : Bool)
    (is_rush_hour : Bool) : AdvancedTrafficLight :=
  if power_outage then
    if current_step % 2 = 0 then
      { light with current_state := TrafficLightState.FLASHING_YELLOW }
    else
      { light with current_state := TrafficLightState.RED }
  else if is_scramble then
    { light with current_state := TrafficLightState.RED, state_start_time := current_step }
  else if emergency_level ≠ EmergencyLevel.NONE then
    if light.current_state ≠ TrafficLightState.GREEN then
      light.change_state TrafficLightState.GREEN current_step
    else light
  else
    let tb := AdvancedTrafficLight.calculate_optimal_timing light.config sensor_data weather
      emergency_level is_rush_hour (weather = WeatherCondition.NIGHT)
    let timing := tb.1
    let light1 := { light with emergency_active := tb.2 }
    let current_duration := light1.get_current_state_duration current_step
    let light2 :=
      if light1.current_state = TrafficLightState.RED then
        if current_duration ≥ timing.red then
          light1.change_state TrafficLightState.PRE_GREEN current_step
        else light1
      else if light1.current_state = TrafficLightState.PRE_GREEN then
        if current_duration ≥ timing.pre_green then
          light1.change_state TrafficLightState.GREEN current_step
        else light1
      else if light1.current_state = TrafficLightState.GREEN then
        let light1g := { light1 with green_time_elapsed := current_duration }
        if current_duration ≥ timing.green then
          light1g.change_state TrafficLightState.YELLOW current_step
        else light1g
      else if light1.current_state = TrafficLightState.YELLOW ∨
          light1.current_state = TrafficLightState.FLASHING_YELLOW then
        if current_duration ≥ timing.yellow then
          light1.change_state TrafficLightState.RED current_step
        else light1
      else light1
    light2.update_adaptation_factor sensor_data

/-!
Traffic monitoring system (anomaly detection, analytics, history).
-/

/-- Anomaly record emitted by the monitor.  The source stores the pair
expected_range = (mean - 2*stdev, mean + 2*stdev) where stdev is the sample
standard deviation, an irrational square root; the record here stores the
mean and the sample variance (stdev squared) instead, which determine that
pair exactly. -/
structure Anomaly where
  sensor_id : String
  kind : String
  value : ℤ
  expected_center : ℚ
  expected_variance : ℚ
  timestamp : ℕ
  deriving DecidableEq, Repr

/-- Mean of a list of vehicle counts, as statistics.mean. -/
def mean_count (vehicle_counts : List ℤ) : ℚ :=
  ((vehicle_counts.sum : ℤ) : ℚ) / (vehicle_counts.length : ℚ)

/-- Sample variance of a list of vehicle counts: the square of
statistics.stdev (denominator n - 1). -/
def sample_variance (vehicle_counts : List ℤ) : ℚ :=
  ((vehicle_counts.map fun c => ((c : ℚ) - mean_count vehicle_counts) ^ 2).sum) /
    ((vehicle_counts.length : ℚ) - 1)

structure TrafficMonitoringSystem where
  sensor_data_history : String → List TrafficSensor
  anomaly_threshold : ℚ

/-- Constructor defaults of TrafficMonitoringSystem.__init__: empty history,
threshold 2.0. -/
def TrafficMonitoringSystem.init : TrafficMonitoringSystem :=
  { sensor_data_history := fun _ => [], anomaly_threshold := 2.0 }

/-- Last 10 stored vehicle counts of a history list (Python slice
history[-10:] followed by the vehicle_count comprehension). -/
def last10_counts (history : List TrafficSensor) : List ℤ :=
  (history.drop (history.length - 10)).map fun s => s.vehicle_count

/-- Per-sensor body of the loop of _detect_anomalies.  statistics.stdev is
the square root of sample_variance, so the source's guards stdev > 0 and
z_score = abs(count - mean)/stdev > threshold are encoded by their exact
squares variance > 0 and (count - mean)^2 > threshold^2 * variance, which
are equivalent for the nonnegative threshold the system configures (2.0);
the equivalence with the z-score form is proved below. -/
def TrafficMonitoringSystem.detect_anomalies_one (threshold : ℚ)
    (history : List TrafficSensor) (sensor : TrafficSensor) : List Anomaly :=
  if history.length < 5 then []
  else if last10_counts history ≠ [] then
    if (last10_counts history).length > 1 then
      if sample_variance (last10_counts history) > 0 then
        if ((sensor.vehicle_count : ℚ) - mean_count (last10_counts history)) ^ 2 >
            threshold ^ 2 * sample_variance (last10_counts history) then
          [{ sensor_id := sensor.id
             kind := "vehicle_count"
             value := sensor.vehicle_count
             expected_center := mean_count (last10_counts history)
             expected_variance := sample_variance (last10_counts history)
             timestamp := sensor.last_update }]
        else []
      else []
    else []
  else []

/-- Source method _detect_anomalies (leading underscore dropped).  Its only
mutation of the history dictionary is inserting an empty list for unseen
ids, a no-op under the total-function representation. -/
def TrafficMonitoringSystem.detect_anomalies (sys : TrafficMonitoringSystem)
    (sensors : List TrafficSensor) : List Anomaly :=
  sensors.foldl
    (fun anomalies sensor =>
      anomalies ++ TrafficMonitoringSystem.detect_anomalies_one sys.anomaly_threshold
        (sys.sensor_data_history sensor.id) sensor)
    []

/-- Append one reading and truncate to the last 100 entries, as the body of
the loop of _update_history (Python list slice history[-100:]). -/
def append_history_entry (history : List TrafficSensor) (sensor : TrafficSensor) :
    List TrafficSensor :=
  let appended := history ++ [sensor]
  if appended.length > 100 then appended.drop (appended.length - 100) else appended

/-- Source method _update_history (leading underscore dropped). -/
def TrafficMonitoringSystem.update_history (sys : TrafficMonitoringSystem)
    (sensors : List TrafficSensor) : TrafficMonitoringSystem :=
  sensors.foldl
    (fun acc sensor =>
      { acc with sensor_data_history := fun k =>
          if k = sensor.id then append_history_entry (acc.sensor_data_history sensor.id) sensor
          else acc.sensor_data_history k })
    sys

/-- Analytics dictionary returned by process_sensor_data (the unused
predictions entry is omitted). -/
structure ProcessedData where
  total_vehicles : ℤ
  average_speed : ℚ
  congestion_level : ℚ
  anomalies : List Anomaly
  deriving DecidableEq, Repr

def TrafficMonitoringSystem.process_sensor_data (sys : TrafficMonitoringSystem)
    (sensors : List TrafficSensor) : ProcessedData × TrafficMonitoringSystem :=
  let processed0 : ProcessedData :=
    { total_vehicles := 0, average_speed := 0, congestion_level := 0, anomalies := [] }
  if sensors = [] then (processed0, sys)
  else
    let total_vehicles := (sensors.map fun s => s.vehicle_count).sum
    let active_sensors := sensors.filter fun s => s.is_active
    let processed1 :=
      if active_sensors ≠ [] then
        let average_speed :=
          (active_sensors.map fun s => s.average_speed).sum / (active_sensors.length : ℚ)
        { processed0 with
          total_vehicles := total_vehicles
          average_speed := average_speed
          congestion_level := min 1.0 (avg_queue_length active_sensors / 10.0) }
      else processed0
    let anomalies := sys.detect_anomalies sensors
    let processed2 := { processed1 with anomalies := anomalies }
    (processed2, sys.update_history sensors)

/-!
Emergency management system.
-/

/-- Lookup with default, the behaviour of Python dict.get(key, default). -/
def dict_get_default {κ α : Type} [DecidableEq κ] (d : List (κ × α)) (k : κ)
    (fallback : α) : α :=
  match d.find? fun p => decide (p.1 = k) with
  | some p => p.2
  | none => fallback

/-- Membership test, the behaviour of Python (key in dict). -/
def dict_contains {κ α : Type} [DecidableEq κ] (d : List (κ × α)) (k : κ) : Bool :=
  d.any fun p => decide (p.1 = k)

/-- Insertion, the behaviour of Python dict[key] = value: replace in place
when the key is present, append otherwise. -/
def dict_set {κ α : Type} [DecidableEq κ] (d : List (κ × α)) (k : κ) (v : α) :
    List (κ × α) :=
  if dict_contains d k then d.map fun p => if p.1 = k then (k, v) else p
  else d ++ [(k, v)]

/-- Deletion, the behaviour of Python (del dict[key]) on a present key. -/
def dict_delete {κ α : Type} [DecidableEq κ] (d : List (κ × α)) (k : κ) :
    List (κ × α) :=
  d.filter fun p => decide (p.1 ≠ k)

/-- Lookup returning an Option, used to state what a registration stored. -/
def dict_find {κ α : Type} [DecidableEq κ] (d : List (κ × α)) (k : κ) : Option α :=
  (d.find? fun p => decide (p.1 = k)).map Prod.snd

/-- Dictionary literal priority_map of calculate_priority. -/
def priority_map : List (EmergencyLevel × ℤ) :=
  [(EmergencyLevel.NONE, 0), (EmergencyLevel.LOW, 1), (EmergencyLevel.MEDIUM, 3),
   (EmergencyLevel.HIGH, 7), (EmergencyLevel.CRITICAL, 10)]

/-- Dictionary self.weather_impact_factors of EmergencyManagementSystem. -/
def weather_impact_factors : List (WeatherCondition × ℚ) :=
  [(WeatherCondition.CLEAR, 1.0), (WeatherCondition.RAIN, 1.2),
   (WeatherCondition.SNOW, 1.5), (WeatherCondition.FOG, 1.8),
   (WeatherCondition.STORM, 2.5)]

/-- Truncation toward zero, the behaviour of Python int() on a float. -/
def python_int (q : ℚ) : ℤ := if 0 ≤ q then ⌊q⌋ else -⌊-q⌋

structure EmergencyManagementSystem where
  active_emergencies : List (String × Vehicle)
  deriving DecidableEq, Repr

/-- Constructor defaults of EmergencyManagementSystem.__init__: empty
registry. -/
def EmergencyManagementSystem.init : EmergencyManagementSystem :=
  { active_emergencies := [] }

def EmergencyManagementSystem.register_emergency_vehicle
    (sys : EmergencyManagementSystem) (vehicle : Vehicle) :
    EmergencyManagementSystem × Bool :=
  if vehicle.emergency_level ≠ EmergencyLevel.NONE then
    ({ sys with active_emergencies := dict_set sys.active_emergencies vehicle.id vehicle },
     true)
  else (sys, false)

def EmergencyManagementSystem.unregister_emergency_vehicle
    (sys : EmergencyManagementSystem) (vehicle_id : String) :
    EmergencyManagementSystem × Bool :=
  if dict_contains sys.active_emergencies vehicle_id then
    ({ sys with active_emergencies := dict_delete sys.active_emergencies vehicle_id },
     true)
  else (sys, false)

/-- Source method calculate_priority; it reads no mutable state beyond the
constant weather_impact_factors dictionary. -/
def EmergencyManagementSystem.calculate_priority (vehicle : Vehicle)
    (weather : WeatherCondition) : ℤ :=
  let base_priority := dict_get_default priority_map vehicle.emergency_level 0
  let weather_factor := dict_get_default weather_impact_factors weather 1.0
  let base_priority1 :=
    if vehicle.type = VehicleType.EMERGENCY then base_priority + 5 else base_priority
  python_int ((base_priority1 : ℚ) * weather_factor)

/-!
Spec-side definitions, written from the words of the specification, for the
refinement statement about calculate_priority.
-/

/-- Modelled from the spec: base priority table NONE=0, LOW=1, MEDIUM=3,
HIGH=7, CRITICAL=10. -/
def spec_base_priority : EmergencyLevel → ℤ
  | EmergencyLevel.NONE => 0
  | EmergencyLevel.LOW => 1
  | EmergencyLevel.MEDIUM => 3
  | EmergencyLevel.HIGH => 7
  | EmergencyLevel.CRITICAL => 10

/-- Modelled from the spec: weather factor table CLEAR=1.0, RAIN=1.2,
SNOW=1.5, FOG=1.8, STORM=2.5, any other condition 1.0. -/
def spec_weather_factor : WeatherCondition → ℚ
  | WeatherCondition.CLEAR => 1.0
  | WeatherCondition.RAIN => 1.2
  | WeatherCondition.SNOW => 1.5
  | WeatherCondition.FOG => 1.8
  | WeatherCondition.STORM => 2.5
  | WeatherCondition.NIGHT => 1.0

/-!
Concrete fixtures used by counterexamples and witnesses.  cfg0 carries the
dataclass defaults of IntersectionConfig.
-/

def cfg0 : IntersectionConfig :=
  { id := "I1", default_green_time := 30.0, default_yellow_time := 5.0,
    default_pre_green_time := 1.5, default_red_time := 30.0, max_green_time := 60.0,
    min_green_time := 10.0, pedestrian_crossing_time := 20.0 }

def sensor_ten : TrafficSensor :=
  { id := "S1", vehicle_count := 10, average_speed := 40, queue_length := 0,
    last_update := 0, is_active := true }

def sensor_inactive : TrafficSensor :=
  { id := "S2", vehicle_count := 7, average_speed := 25, queue_length := 4,
    last_update := 0, is_active := false }

/-!
Theorems.
-/

/-- C8: for every sensor list, weather condition, emergency level, rush-hour
and night flag combination, assuming config.min_green_time ≤
config.max_green_time, the green duration returned by
calculate_optimal_timing lies within [min_green_time, max_green_time]. -/
theorem calculate_optimal_timing_green_within_bounds (config : IntersectionConfig)
    (sensor_data : List TrafficSensor) (weather : WeatherCondition)
    (emergency_level : EmergencyLevel) (is_rush_hour is_night : Bool)
    (h : config.min_green_time ≤ config.max_green_time) :
    config.min_green_time ≤
      (AdvancedTrafficLight.calculate_optimal_timing config sensor_data weather
        emergency_level is_rush_hour is_night).1.green ∧
    (AdvancedTrafficLight.calculate_optimal_timing config sensor_data weather
        emergency_level is_rush_hour is_night).1.green ≤ config.max_green_time := by
  unfold AdvancedTrafficLight.calculate_optimal_timing
  exact ⟨le_max_left _ _, max_le h (min_le_left _ _)⟩

theorem calculate_optimal_timing_green_within_bounds_witness :
    cfg0.min_green_time ≤ cfg0.max_green_time ∧
    (cfg0.min_green_time ≤
      (AdvancedTrafficLight.calculate_optimal_timing cfg0 [sensor_ten]
        WeatherCondition.CLEAR EmergencyLevel.NONE false false).1.green ∧
    (AdvancedTrafficLight.calculate_optimal_timing cfg0 [sensor_ten]
        WeatherCondition.CLEAR EmergencyLevel.NONE false false).1.green ≤
      cfg0.max_green_time) :=
  ⟨by norm_num [cfg0],
   calculate_optimal_timing_green_within_bounds cfg0 [sensor_ten]
     WeatherCondition.CLEAR EmergencyLevel.NONE false false (by norm_num [cfg0])⟩

/-- C4: on every tick with the power-outage flag set, update_state sets the
signal to FLASHING_YELLOW on even ticks and RED on odd ticks, regardless of
the prior state, and leaves state_start_time, cycle_count and
adaptation_factor unchanged. -/
theorem update_state_power_outage (light : AdvancedTrafficLight) (current_step : ℤ)
    (sensor_data : List TrafficSensor) (weather : WeatherCondition)
    (emergency_level : EmergencyLevel) (is_scramble is_rush_hour : Bool) :
    (light.update_state current_step sensor_data weather emergency_level true
        is_scramble is_rush_hour).current_state =
      (if current_step % 2 = 0 then TrafficLightState.FLASHING_YELLOW
       else TrafficLightState.RED) ∧
    (light.update_state current_step sensor_data weather emergency_level true
        is_scramble is_rush_hour).state_start_time = light.state_start_time ∧
    (light.update_state current_step sensor_data weather emergency_level true
        is_scramble is_rush_hour).cycle_count = light.cycle_count ∧
    (light.update_state current_step sensor_data weather emergency_level true
        is_scramble is_rush_hour).adaptation_factor = light.adaptation_factor := by
  unfold AdvancedTrafficLight.update_state
  by_cases h : current_step % 2 = 0 <;> simp [h]

/-- C5: calculate_priority returns int((base(level) + 5 if the vehicle type
is EMERGENCY) × weatherFactor(weather)) with base NONE=0, LOW=1, MEDIUM=3,
HIGH=7, CRITICAL=10 and weatherFactor CLEAR=1.0, RAIN=1.2, SNOW=1.5,
FOG=1.8, STORM=2.5, any other condition 1.0; in particular an
EMERGENCY-type vehicle at level HIGH under STORM scores 30. -/
theorem calculate_priority_matches_spec :
    (∀ (vehicle : Vehicle) (weather : WeatherCondition),
      EmergencyManagementSystem.calculate_priority vehicle weather =
        python_int (((spec_base_priority vehicle.emergency_level +
          (if vehicle.type = VehicleType.EMERGENCY then 5 else 0) : ℤ) : ℚ) *
          spec_weather_factor weather)) ∧
    EmergencyManagementSystem.calculate_priority
      { id := "EV1", type := VehicleType.EMERGENCY, emergency_level := EmergencyLevel.HIGH }
      WeatherCondition.STORM = 30 := by
  constructor
  · intro vehicle weather
    obtain ⟨vid, vtype, vlevel⟩ := vehicle
    by_cases ht : vtype = VehicleType.EMERGENCY <;>
      cases vlevel <;> cases weather <;>
        simp [EmergencyManagementSystem.calculate_priority, dict_get_default,
          priority_map, weather_impact_factors, spec_base_priority, spec_weather_factor,
          List.find?, ht]
  · simp [EmergencyManagementSystem.calculate_priority, dict_get_default,
      priority_map, weather_impact_factors, python_int, List.find?]
    norm_num

/-- C10: when the sensor list is non-empty but contains no active sensor,
process_sensor_data reports total_vehicles = 0, average_speed = 0 and
congestion_level = 0 even if the inactive sensors carry nonzero vehicle
counts. -/
theorem process_sensor_data_inactive_sensors (sys : TrafficMonitoringSystem)
    (sensors : List TrafficSensor) (hne : sensors ≠ [])
    (hin : ∀ s ∈ sensors, s.is_active = false) :
    (sys.process_sensor_data sensors).1.total_vehicles = 0 ∧
    (sys.process_sensor_data sensors).1.average_speed = 0 ∧
    (sys.process_sensor_data sensors).1.congestion_level = 0 := by
  have hfilter : sensors.filter (fun s => s.is_active) = [] := by
    rw [List.filter_eq_nil_iff]
    intro s hs
    simp [hin s hs]
  unfold TrafficMonitoringSystem.process_sensor_data
  simp [hne, hfilter]

/-- Helper: updating a present key in place leaves the key list unchanged. -/
lemma dict_set_map_fst_of_mem {κ α : Type} [DecidableEq κ] (d : List (κ × α)) (k : κ)
    (v : α) :
    ((d.map fun p => if p.1 = k then (k, v) else p).map Prod.fst) = d.map Prod.fst := by
  induction d with
  | nil => rfl
  | cons p rest ih => by_cases h : p.1 = k <;> simp [h, ih]

/-- Helper: finding the key just written by the in-place update. -/
lemma find_map_update_of_contains {κ α : Type} [DecidableEq κ] (d : List (κ × α))
    (k : κ) (v : α) (hc : dict_contains d k = true) :
    ((d.map fun p => if p.1 = k then (k, v) else p).find? fun p => decide (p.1 = k)) =
      some (k, v) := by
  induction d with
  | nil => simp [dict_contains] at hc
  | cons p rest ih =>
    by_cases h : p.1 = k
    · simp [h]
    · have hc1 : dict_contains rest k = true := by
        simp [dict_contains] at hc ⊢
        rcases hc with hc | hc
        · exact absurd hc h
        · exact hc
      simp [h, ih hc1]

/-- Helper: finding the key just appended when it was absent. -/
lemma find_append_of_not_contains {κ α : Type} [DecidableEq κ] (d : List (κ × α))
    (k : κ) (v : α) (hc : dict_contains d k = false) :
    ((d ++ [(k, v)]).find? fun p => decide (p.1 = k)) = some (k, v) := by
  induction d with
  | nil => simp
  | cons p rest ih =>
    have h : ¬(p.1 = k) := by
      intro he
      simp [dict_contains, he] at hc
    have hc1 : dict_contains rest k = false := by
      simp [dict_contains] at hc ⊢
      intro q hq
      exact hc.2 q hq
    simp [h, ih hc1]

/-- Helper: the value stored by dict_set is found under its key. -/
lemma dict_find_dict_set {κ α : Type} [DecidableEq κ] (d : List (κ × α)) (k : κ)
    (v : α) : dict_find (dict_set d k v) k = some v := by
  unfold dict_find dict_set
  by_cases hc : dict_contains d k = true
  · rw [if_pos hc, find_map_update_of_contains d k v hc]
    rfl
  · rw [if_neg hc, find_append_of_not_contains d k v (by simpa using hc)]
    rfl

/-- Helper: dict_set never introduces a duplicate key. -/
lemma dict_set_keys_nodup {κ α : Type} [DecidableEq κ] (d : List (κ × α)) (k : κ)
    (v : α) (h : (d.map Prod.fst).Nodup) :
    ((dict_set d k v).map Prod.fst).Nodup := by
  unfold dict_set
  by_cases hc : dict_contains d k = true
  · rw [if_pos hc, dict_set_map_fst_of_mem]
    exact h
  · rw [if_neg hc]
    have hk : k ∉ d.map Prod.fst := by
      intro hm
      obtain ⟨p, hp, he⟩ := List.mem_map.mp hm
      apply hc
      rw [dict_contains, List.any_eq_true]
      exact ⟨p, hp, by simp [he]⟩
    simp [List.nodup_append, h, hk]

/-- C6: register_emergency_vehicle returns False and leaves the registry
unchanged for every vehicle of emergency level NONE;
unregister_emergency_vehicle returns False and leaves the registry
unchanged for every absent id; a successful registration stores the
vehicle under its id, and registration preserves key uniqueness, so
registering the same id twice never produces duplicate entries. -/
theorem emergency_registry_safety :
    (∀ (sys : EmergencyManagementSystem) (vehicle : Vehicle),
      vehicle.emergency_level = EmergencyLevel.NONE →
        sys.register_emergency_vehicle vehicle = (sys, false)) ∧
    (∀ (sys : EmergencyManagementSystem) (vehicle_id : String),
      dict_contains sys.active_emergencies vehicle_id = false →
        sys.unregister_emergency_vehicle vehicle_id = (sys, false)) ∧
    (∀ (sys : EmergencyManagementSystem) (vehicle : Vehicle),
      vehicle.emergency_level ≠ EmergencyLevel.NONE →
        dict_find (sys.register_emergency_vehicle vehicle).1.active_emergencies
          vehicle.id = some vehicle) ∧
    (∀ (sys : EmergencyManagementSystem) (vehicle : Vehicle),
      (sys.active_emergencies.map Prod.fst).Nodup →
        ((sys.register_emergency_vehicle vehicle).1.active_emergencies.map
          Prod.fst).Nodup) := by
  refine ⟨?_, ?_, ?_, ?_⟩
  · intro sys vehicle h
    simp [EmergencyManagementSystem.register_emergency_vehicle, h]
  · intro sys vehicle_id h
    simp [EmergencyManagementSystem.unregister_emergency_vehicle, h]
  · intro sys vehicle h
    simp [EmergencyManagementSystem.register_emergency_vehicle, h]
    exact dict_find_dict_set _ _ _
  · intro sys vehicle h
    unfold EmergencyManagementSystem.register_emergency_vehicle
    split_ifs with he
    · exact dict_set_keys_nodup _ _ _ h
    · exact h

def vehicle_none : Vehicle :=
  { id := "V0", type := VehicleType.CAR, emergency_level := EmergencyLevel.NONE }

def vehicle_high : Vehicle :=
  { id := "EV1", type := VehicleType.EMERGENCY, emergency_level := EmergencyLevel.HIGH }

theorem emergency_registry_safety_witness :
    EmergencyManagementSystem.init.register_emergency_vehicle vehicle_none =
      (EmergencyManagementSystem.init, false) ∧
    EmergencyManagementSystem.init.unregister_emergency_vehicle "V9" =
      (EmergencyManagementSystem.init, false) ∧
    dict_find (EmergencyManagementSystem.init.register_emergency_vehicle
      vehicle_high).1.active_emergencies vehicle_high.id = some vehicle_high ∧
    ((EmergencyManagementSystem.init.register_emergency_vehicle
      vehicle_high).1.active_emergencies.map Prod.fst).Nodup :=
  ⟨emergency_registry_safety.1 EmergencyManagementSystem.init vehicle_none rfl,
   emergency_registry_safety.2.1 EmergencyManagementSystem.init "V9" rfl,
   emergency_registry_safety.2.2.1 EmergencyManagementSystem.init vehicle_high
     (by simp [vehicle_high]),
   emergency_registry_safety.2.2.2 EmergencyManagementSystem.init vehicle_high
     (by simp [EmergencyManagementSystem.init])⟩

/-- Helper: one adaptation update keeps the factor within [0.5, 2.0]. -/
lemma update_adaptation_factor_mem (light : AdvancedTrafficLight)
    (sensor_data : List TrafficSensor)
    (h1 : 0.5 ≤ light.adaptation_factor) (h2 : light.adaptation_factor ≤ 2.0) :
    0.5 ≤ (light.update_adaptation_factor sensor_data).adaptation_factor ∧
    (light.update_adaptation_factor sensor_data).adaptation_factor ≤ 2.0 := by
  unfold AdvancedTrafficLight.update_adaptation_factor
  split_ifs with hempty hq1 hq2
  · exact ⟨h1, h2⟩
  · constructor
    · exact le_min (by norm_num) (by linarith)
    · exact min_le_left _ _
  · constructor
    · exact le_max_left _ _
    · exact max_le (by norm_num) (by linarith)
  · exact ⟨h1, h2⟩

/-- C7: on every update with a non-empty sensor list the adaptation factor
increases by 0.01 capped at 2.0 when the mean queue length exceeds 5,
decreases by 0.01 floored at 0.5 when it is below 2, and is otherwise
unchanged; starting from its initial value 1.0 it stays within [0.5, 2.0]
after every sequence of updates. -/
theorem adaptation_factor_step_and_bounds :
    (∀ (light : AdvancedTrafficLight) (sensor_data : List TrafficSensor),
      sensor_data ≠ [] → avg_queue_length sensor_data > 5 →
        (light.update_adaptation_factor sensor_data).adaptation_factor =
          min 2.0 (light.adaptation_factor + 0.01)) ∧
    (∀ (light : AdvancedTrafficLight) (sensor_data : List TrafficSensor),
      sensor_data ≠ [] → avg_queue_length sensor_data < 2 →
        (light.update_adaptation_factor sensor_data).adaptation_factor =
          max 0.5 (light.adaptation_factor - 0.01)) ∧
    (∀ (light : AdvancedTrafficLight) (sensor_data : List TrafficSensor),
      sensor_data ≠ [] → 2 ≤ avg_queue_length sensor_data →
        avg_queue_length sensor_data ≤ 5 →
        (light.update_adaptation_factor sensor_data).adaptation_factor =
          light.adaptation_factor) ∧
    (∀ (light : AdvancedTrafficLight) (updates : List (List TrafficSensor)),
      light.adaptation_factor = 1.0 →
        0.5 ≤ (updates.foldl AdvancedTrafficLight.update_adaptation_factor
          light).adaptation_factor ∧
        (updates.foldl AdvancedTrafficLight.update_adaptation_factor
          light).adaptation_factor ≤ 2.0) := by
  have key : ∀ (updates : List (List TrafficSensor)) (light : AdvancedTrafficLight),
      0.5 ≤ light.adaptation_factor → light.adaptation_factor ≤ 2.0 →
      0.5 ≤ (updates.foldl AdvancedTrafficLight.update_adaptation_factor
        light).adaptation_factor ∧
      (updates.foldl AdvancedTrafficLight.update_adaptation_factor
        light).adaptation_factor ≤ 2.0 := by
    intro updates
    induction updates with
    | nil => intro light h1 h2; exact ⟨h1, h2⟩
    | cons sd rest ih =>
      intro light h1 h2
      have h3 := update_adaptation_factor_mem light sd h1 h2
      exact ih _ h3.1 h3.2
  refine ⟨?_, ?_, ?_, ?_⟩
  · intro light sensor_data hne hq
    unfold AdvancedTrafficLight.update_adaptation_factor
    rw [if_neg hne, if_pos hq]
  · intro light sensor_data hne hq
    unfold AdvancedTrafficLight.update_adaptation_factor
    rw [if_neg hne, if_neg (by linarith : ¬avg_queue_length sensor_data > 5),
      if_pos hq]
  · intro light sensor_data hne hq1 hq2
    unfold AdvancedTrafficLight.update_adaptation_factor
    rw [if_neg hne, if_neg (by linarith : ¬avg_queue_length sensor_data > 5),
      if_neg (by linarith : ¬avg_queue_length sensor_data < 2)]
  · intro light updates h1
    exact key updates light (by rw [h1]; norm_num) (by rw [h1]; norm_num)

def sensor_q6 : TrafficSensor :=
  { id := "S3", vehicle_count := 2, average_speed := 30, queue_length := 6,
    last_update := 0, is_active := true }

def sensor_q0 : TrafficSensor :=
  { id := "S4", vehicle_count := 2, average_speed := 30, queue_length := 0,
    last_update := 0, is_active := true }

def sensor_q3 : TrafficSensor :=
  { id := "S5", vehicle_count := 2, average_speed := 30, queue_length := 3,
    last_update := 0, is_active := true }

def light0 : AdvancedTrafficLight := AdvancedTrafficLight.init "I1" cfg0

theorem adaptation_factor_step_and_bounds_witness :
    ((light0.update_adaptation_factor [sensor_q6]).adaptation_factor =
      min 2.0 (light0.adaptation_factor + 0.01)) ∧
    ((light0.update_adaptation_factor [sensor_q0]).adaptation_factor =
      max 0.5 (light0.adaptation_factor - 0.01)) ∧
    ((light0.update_adaptation_factor [sensor_q3]).adaptation_factor =
      light0.adaptation_factor) ∧
    (0.5 ≤ ([[sensor_q6]].foldl AdvancedTrafficLight.update_adaptation_factor
      light0).adaptation_factor ∧
    ([[sensor_q6]].foldl AdvancedTrafficLight.update_adaptation_factor
      light0).adaptation_factor ≤ 2.0) :=
  ⟨adaptation_factor_step_and_bounds.1 light0 [sensor_q6] (by simp)
     (by norm_num [avg_queue_length, sensor_q6]),
   adaptation_factor_step_and_bounds.2.1 light0 [sensor_q0] (by simp)
     (by norm_num [avg_queue_length, sensor_q0]),
   adaptation_factor_step_and_bounds.2.2.1 light0 [sensor_q3] (by simp)
     (by norm_num [avg_queue_length, sensor_q3])
     (by norm_num [avg_queue_length, sensor_q3]),
   adaptation_factor_step_and_bounds.2.2.2 light0 [[sensor_q6]]
     (by simp [light0, AdvancedTrafficLight.init])⟩

theorem process_sensor_data_inactive_sensors_witness :
    [sensor_inactive] ≠ [] ∧ sensor_inactive.vehicle_count ≠ 0 ∧
    (TrafficMonitoringSystem.init.process_sensor_data [sensor_inactive]).1.total_vehicles = 0 ∧
    (TrafficMonitoringSystem.init.process_sensor_data [sensor_inactive]).1.average_speed = 0 ∧
    (TrafficMonitoringSystem.init.process_sensor_data [sensor_inactive]).1.congestion_level = 0 :=
  ⟨by simp, by simp [sensor_inactive],
   process_sensor_data_inactive_sensors TrafficMonitoringSystem.init [sensor_inactive]
     (by simp) (by simp [sensor_inactive])⟩

/-- Helper: one history append always equals an append followed by a drop of
the overflow, whether or not the cap is hit. -/
lemma append_history_entry_eq (history : List TrafficSensor) (sensor : TrafficSensor) :
    append_history_entry history sensor =
      (history ++ [sensor]).drop ((history.length + 1) - 100) := by
  unfold append_history_entry
  by_cases h : (history ++ [sensor]).length > 100
  · rw [if_pos h]
    simp
  · rw [if_neg h]
    simp at h
    rw [Nat.sub_eq_zero_of_le (by omega), List.drop_zero]

/-- Helper: one history append never leaves more than 100 entries. -/
lemma append_history_entry_length_le (history : List TrafficSensor)
    (sensor : TrafficSensor) :
    (append_history_entry history sensor).length ≤ 100 := by
  rw [append_history_entry_eq]
  simp
  omega

/-- Helper: folding history appends from a list below the cap keeps exactly
the most recent 100 entries of the concatenated stream. -/
lemma foldl_append_history (readings : List TrafficSensor) :
    ∀ (history : List TrafficSensor), history.length ≤ 100 →
      readings.foldl append_history_entry history =
        (history ++ readings).drop ((history.length + readings.length) - 100) := by
  induction readings with
  | nil =>
    intro history h
    simp [Nat.sub_eq_zero_of_le h]
  | cons x xs ih =>
    intro history h
    have hlen1 : (append_history_entry history x).length ≤ 100 :=
      append_history_entry_length_le history x
    have hAlen : (append_history_entry history x).length =
        (history.length + 1) - ((history.length + 1) - 100) := by
      rw [append_history_entry_eq]
      simp
    rw [List.foldl_cons, ih (append_history_entry history x) hlen1, hAlen,
      append_history_entry_eq,
      ← List.drop_append_of_le_length
        (by simp; omega : (history.length + 1) - 100 ≤ (history ++ [x]).length),
      List.drop_drop, List.append_assoc, List.singleton_append]
    congr 1
    simp only [List.length_cons]
    omega

/-- Helper: update_history keeps every per-sensor history within the cap. -/
lemma update_history_length_le (sensors : List TrafficSensor) :
    ∀ (sys : TrafficMonitoringSystem) (k : String),
      (sys.sensor_data_history k).length ≤ 100 →
      ((sys.update_history sensors).sensor_data_history k).length ≤ 100 := by
  induction sensors with
  | nil => intro sys k h; exact h
  | cons s rest ih =>
    intro sys k h
    have step : TrafficMonitoringSystem.update_history sys (s :: rest) =
        TrafficMonitoringSystem.update_history
          { sys with sensor_data_history := fun k2 =>
              if k2 = s.id then append_history_entry (sys.sensor_data_history s.id) s
              else sys.sensor_data_history k2 } rest := rfl
    rw [step]
    apply ih
    by_cases hk : k = s.id
    · simp only [hk, if_pos rfl]
      exact append_history_entry_length_le _ _
    · simp only [if_neg hk]
      exact h

/-- Helper: process_sensor_data keeps every per-sensor history within the
cap. -/
lemma process_sensor_data_history_le (sys : TrafficMonitoringSystem)
    (sensors : List TrafficSensor) (k : String)
    (h : (sys.sensor_data_history k).length ≤ 100) :
    ((sys.process_sensor_data sensors).2.sensor_data_history k).length ≤ 100 := by
  unfold TrafficMonitoringSystem.process_sensor_data
  split_ifs with hs
  · exact h
  · exact update_history_length_le sensors sys k h

/-- Driver loop: feed a stream of readings tick by tick, one snapshot of a
single sensor per call, as the orchestrator does for one sensor. -/
def feed_process (sys : TrafficMonitoringSystem) (readings : List TrafficSensor) :
    TrafficMonitoringSystem :=
  readings.foldl (fun acc s => (acc.process_sensor_data [s]).2) sys

/-- Helper: feeding a single sensor's readings folds append_history_entry
over its history. -/
lemma feed_process_history (readings : List TrafficSensor) (i : String) :
    ∀ (sys : TrafficMonitoringSystem), (∀ s ∈ readings, s.id = i) →
      (feed_process sys readings).sensor_data_history i =
        readings.foldl append_history_entry (sys.sensor_data_history i) := by
  induction readings with
  | nil => intro sys _; rfl
  | cons s rest ih =>
    intro sys h
    have hs : s.id = i := h s (by simp)
    have hrest : ∀ x ∈ rest, x.id = i := fun x hx => h x (by simp [hx])
    have hstep : ((sys.process_sensor_data [s]).2).sensor_data_history i =
        append_history_entry (sys.sensor_data_history i) s := by
      show (TrafficMonitoringSystem.update_history sys [s]).sensor_data_history i = _
      unfold TrafficMonitoringSystem.update_history
      simp [List.foldl_cons, hs]
    have step : feed_process sys (s :: rest) =
        feed_process ((sys.process_sensor_data [s]).2) rest := rfl
    rw [step, ih _ hrest, List.foldl_cons, hstep]

/-- C9: after every call to process_sensor_data each sensor's stored history
has at most 100 entries; a sensor fed tick by tick from a fresh monitor
retains exactly the most recent 100 readings of its stream (FIFO, oldest
evicted first), and after 150 ticks its retained history length is exactly
100. -/
theorem sensor_history_cap_fifo :
    (∀ (sys : TrafficMonitoringSystem) (sensors : List TrafficSensor) (k : String),
      (sys.sensor_data_history k).length ≤ 100 →
      ((sys.process_sensor_data sensors).2.sensor_data_history k).length ≤ 100) ∧
    (∀ (readings : List TrafficSensor) (i : String), (∀ s ∈ readings, s.id = i) →
      (feed_process TrafficMonitoringSystem.init readings).sensor_data_history i =
        readings.drop (readings.length - 100)) ∧
    (∀ (readings : List TrafficSensor) (i : String), (∀ s ∈ readings, s.id = i) →
      readings.length = 150 →
      ((feed_process TrafficMonitoringSystem.init
        readings).sensor_data_history i).length = 100) := by
  refine ⟨process_sensor_data_history_le, ?_, ?_⟩
  · intro readings i h
    rw [feed_process_history readings i TrafficMonitoringSystem.init h,
      foldl_append_history readings _ (by simp [TrafficMonitoringSystem.init])]
    simp [TrafficMonitoringSystem.init]
  · intro readings i h hlen
    rw [feed_process_history readings i TrafficMonitoringSystem.init h,
      foldl_append_history readings _ (by simp [TrafficMonitoringSystem.init])]
    simp [TrafficMonitoringSystem.init]
    omega

theorem sensor_history_cap_fifo_witness :
    ((TrafficMonitoringSystem.init.process_sensor_data
      [sensor_ten]).2.sensor_data_history "S1").length ≤ 100 ∧
    (feed_process TrafficMonitoringSystem.init [sensor_ten]).sensor_data_history "S1" =
      [sensor_ten].drop ([sensor_ten].length - 100) ∧
    ((feed_process TrafficMonitoringSystem.init
      (List.replicate 150 sensor_ten)).sensor_data_history "S1").length = 100 :=
  ⟨sensor_history_cap_fifo.1 TrafficMonitoringSystem.init [sensor_ten] "S1"
     (by simp [TrafficMonitoringSystem.init]),
   sensor_history_cap_fifo.2.1 [sensor_ten] "S1"
     (by intro s hs; simp at hs; rw [hs]; rfl),
   sensor_history_cap_fifo.2.2 (List.replicate 150 sensor_ten) "S1"
     (by intro s hs; rw [List.eq_of_mem_replicate hs]; rfl) (by simp)⟩

def sensor_zero : TrafficSensor :=
  { id := "S6", vehicle_count := 0, average_speed := 30, queue_length := 0,
    last_update := 0, is_active := true }

/-- C1 counterexample: at the dataclass-default config, a HIGH emergency
with one sensor reporting 10 vehicles yields green 38.0, not the clamped
min_green_time 10.0 — the density-derived value overwrites the emergency
assignment, not the other way round. -/
theorem emergency_green_override_counterexample :
    (AdvancedTrafficLight.calculate_optimal_timing cfg0 [sensor_ten]
      WeatherCondition.CLEAR EmergencyLevel.HIGH false false).1.green ≠
    max cfg0.min_green_time (min cfg0.max_green_time cfg0.min_green_time) := by
  simp [AdvancedTrafficLight.calculate_optimal_timing, avg_vehicle_count, cfg0, sensor_ten]
  norm_num

/-- C1 amended: with emergency_level ≠ NONE the returned green equals
min_green_time only when the sensor list is empty (given min ≤ max); when
the sensor list is non-empty the density-derived value takes precedence,
so the green is the same as with no emergency at all. -/
theorem calculate_optimal_timing_emergency_green (config : IntersectionConfig)
    (weather : WeatherCondition) (emergency_level : EmergencyLevel)
    (is_rush_hour is_night : Bool) (sensor_data : List TrafficSensor)
    (he : emergency_level ≠ EmergencyLevel.NONE) :
    ((AdvancedTrafficLight.calculate_optimal_timing config [] weather emergency_level
      is_rush_hour is_night).1.green = config.min_green_time) ∧
    (sensor_data ≠ [] →
      (AdvancedTrafficLight.calculate_optimal_timing config sensor_data weather
        emergency_level is_rush_hour is_night).1.green =
      (AdvancedTrafficLight.calculate_optimal_timing config sensor_data weather
        EmergencyLevel.NONE is_rush_hour is_night).1.green) := by
  constructor
  · unfold AdvancedTrafficLight.calculate_optimal_timing
    simp [he]
  · intro hsd
    unfold AdvancedTrafficLight.calculate_optimal_timing
    simp [hsd]

theorem calculate_optimal_timing_emergency_green_witness :
    EmergencyLevel.HIGH ≠ EmergencyLevel.NONE ∧
    (((AdvancedTrafficLight.calculate_optimal_timing cfg0 [] WeatherCondition.CLEAR
      EmergencyLevel.HIGH false false).1.green = cfg0.min_green_time) ∧
    ([sensor_ten] ≠ [] →
      (AdvancedTrafficLight.calculate_optimal_timing cfg0 [sensor_ten]
        WeatherCondition.CLEAR EmergencyLevel.HIGH false false).1.green =
      (AdvancedTrafficLight.calculate_optimal_timing cfg0 [sensor_ten]
        WeatherCondition.CLEAR EmergencyLevel.NONE false false).1.green)) :=
  ⟨by simp,
   calculate_optimal_timing_emergency_green cfg0 WeatherCondition.CLEAR
     EmergencyLevel.HIGH false false [sensor_ten] (by simp)⟩

/-- C2 counterexample: at the dataclass-default config, an empty sensor list
under RAIN with no emergency yields green clamp(default_green_time) = 30.0,
not clamp(3.0 + 4.0) = 10.0 — the density and weather block is skipped
entirely when there are no sensors. -/
theorem empty_sensors_rain_counterexample :
    (AdvancedTrafficLight.calculate_optimal_timing cfg0 [] WeatherCondition.RAIN
      EmergencyLevel.NONE false false).1.green ≠
    max cfg0.min_green_time (min cfg0.max_green_time (3.0 + 4.0)) := by
  norm_num [AdvancedTrafficLight.calculate_optimal_timing, avg_vehicle_count, cfg0]

/-- C2 amended: with an empty sensor list (emergency NONE) the density and
weather block is skipped and the green is the clamped default_green_time;
the value clamp(3.0 + 4.0) = clamp(7.0) arises instead when sensors are
present but all report zero vehicles under RAIN. -/
theorem calculate_optimal_timing_zero_density_rain (config : IntersectionConfig)
    (sensor_data : List TrafficSensor) (hne : sensor_data ≠ [])
    (hz : ∀ s ∈ sensor_data, s.vehicle_count = 0) :
    ((AdvancedTrafficLight.calculate_optimal_timing config [] WeatherCondition.RAIN
      EmergencyLevel.NONE false false).1.green =
      max config.min_green_time (min config.max_green_time config.default_green_time)) ∧
    ((AdvancedTrafficLight.calculate_optimal_timing config sensor_data
      WeatherCondition.RAIN EmergencyLevel.NONE false false).1.green =
      max config.min_green_time (min config.max_green_time (3.0 + 4.0))) := by
  constructor
  · unfold AdvancedTrafficLight.calculate_optimal_timing
    simp
  · have hsum : (sensor_data.map fun s => s.vehicle_count).sum = 0 := by
      apply List.sum_eq_zero
      intro x hx
      obtain ⟨s, hs, rfl⟩ := List.mem_map.mp hx
      exact hz s hs
    unfold AdvancedTrafficLight.calculate_optimal_timing avg_vehicle_count
    rw [hsum]
    simp [hne]

theorem calculate_optimal_timing_zero_density_rain_witness :
    [sensor_zero] ≠ [] ∧
    (((AdvancedTrafficLight.calculate_optimal_timing cfg0 [] WeatherCondition.RAIN
      EmergencyLevel.NONE false false).1.green =
      max cfg0.min_green_time (min cfg0.max_green_time cfg0.default_green_time)) ∧
    ((AdvancedTrafficLight.calculate_optimal_timing cfg0 [sensor_zero]
      WeatherCondition.RAIN EmergencyLevel.NONE false false).1.green =
      max cfg0.min_green_time (min cfg0.max_green_time (3.0 + 4.0)))) :=
  ⟨by simp,
   calculate_optimal_timing_zero_density_rain cfg0 [sensor_zero] (by simp)
     (by intro s hs; simp at hs; rw [hs]; rfl)⟩

def sensor_five (n : ℕ) : TrafficSensor :=
  { id := "S1", vehicle_count := 5, average_speed := 40, queue_length := 0,
    last_update := n, is_active := true }

def history_nine : List TrafficSensor :=
  [sensor_five 0, sensor_five 1, sensor_five 2, sensor_five 3, sensor_five 4,
   sensor_five 5, sensor_five 6, sensor_five 7, sensor_five 8]

def sensor_twenty : TrafficSensor :=
  { id := "S1", vehicle_count := 20, average_speed := 40, queue_length := 0,
    last_update := 9, is_active := true }

def sysC3 : TrafficMonitoringSystem :=
  { sensor_data_history := fun k => if k = "S1" then history_nine else [],
    anomaly_threshold := 2.0 }

/-- C3 counterexample: a sensor with 9 prior stored counts of 5 and a
current reading of 20 is not flagged by process_sensor_data — the sample
standard deviation of nine identical counts is zero, so the z-score guard
is never reached. -/
theorem constant_history_not_flagged_counterexample :
    (sysC3.process_sensor_data [sensor_twenty]).1.anomalies = [] := by
  simp [TrafficMonitoringSystem.process_sensor_data,
    TrafficMonitoringSystem.detect_anomalies,
    TrafficMonitoringSystem.detect_anomalies_one, sysC3, sensor_twenty, history_nine,
    sensor_five, mean_count, sample_variance, last10_counts]
  norm_num

/-- Helper: for positive variance and a nonnegative threshold, the squared
comparison used by the embedding is exactly the source's z-score
comparison abs(d)/sqrt(v) > t. -/
lemma zscore_sq_iff (d v t : ℚ) (hv : 0 < v) (ht : 0 ≤ t) :
    t ^ 2 * v < d ^ 2 ↔ (t : ℝ) < |(d : ℝ)| / Real.sqrt (v : ℝ) := by
  have hv' : (0 : ℝ) < (v : ℝ) := by exact_mod_cast hv
  have hs : (0 : ℝ) < Real.sqrt (v : ℝ) := Real.sqrt_pos.mpr hv'
  have ht' : (0 : ℝ) ≤ (t : ℝ) := by exact_mod_cast ht
  rw [lt_div_iff₀ hs]
  have hq : t ^ 2 * v < d ^ 2 ↔ (t : ℝ) ^ 2 * (v : ℝ) < (d : ℝ) ^ 2 := by
    constructor <;> intro h <;> exact_mod_cast h
  rw [hq]
  constructor
  · intro h
    have h1 : ((t : ℝ) * Real.sqrt (v : ℝ)) ^ 2 < |(d : ℝ)| ^ 2 := by
      rw [mul_pow, Real.sq_sqrt hv'.le, sq_abs]
      exact h
    exact lt_of_pow_lt_pow_left₀ 2 (abs_nonneg _) h1
  · intro h
    have h0 : (0 : ℝ) ≤ (t : ℝ) * Real.sqrt (v : ℝ) := by positivity
    have h1 : ((t : ℝ) * Real.sqrt (v : ℝ)) ^ 2 < |(d : ℝ)| ^ 2 :=
      pow_lt_pow_left₀ h h0 two_ne_zero
    rw [mul_pow, Real.sq_sqrt hv'.le, sq_abs] at h1
    exact h1

/-- C3 amended: for a sensor with at least 5 prior history entries an
anomaly is emitted exactly when the sample standard deviation of the last
10 stored vehicle counts is positive and |current − mean| / deviation
exceeds the (nonnegative) threshold; a sensor with fewer than 5 history
entries is never flagged; detection inside process_sensor_data runs on the
pre-call history, before the current reading is appended; and the sensor
with 9 prior counts of 5 and a current reading of 20 is not flagged, since
those counts have zero deviation. -/
theorem detect_anomalies_zscore_rule :
    (∀ (t : ℚ) (history : List TrafficSensor) (sensor : TrafficSensor),
      0 ≤ t → 5 ≤ history.length →
      (TrafficMonitoringSystem.detect_anomalies_one t history sensor ≠ [] ↔
        0 < sample_variance (last10_counts history) ∧
        (t : ℝ) <
          |(((sensor.vehicle_count : ℚ) - mean_count (last10_counts history) : ℚ) : ℝ)| /
            Real.sqrt ((sample_variance (last10_counts history) : ℚ) : ℝ))) ∧
    (∀ (t : ℚ) (history : List TrafficSensor) (sensor : TrafficSensor),
      history.length < 5 →
      TrafficMonitoringSystem.detect_anomalies_one t history sensor = []) ∧
    (∀ (sys : TrafficMonitoringSystem) (sensors : List TrafficSensor),
      (sys.process_sensor_data sensors).1.anomalies = sys.detect_anomalies sensors) ∧
    TrafficMonitoringSystem.detect_anomalies_one 2 history_nine sensor_twenty = [] := by
  refine ⟨?_, ?_, ?_, ?_⟩
  · intro t history sensor ht h5
    have hlen : (last10_counts history).length = min history.length 10 := by
      simp [last10_counts]
      omega
    have hpos : 0 < (last10_counts history).length := by rw [hlen]; omega
    have hne : last10_counts history ≠ [] := List.length_pos.mp hpos
    have hgt1 : (last10_counts history).length > 1 := by rw [hlen]; omega
    rw [TrafficMonitoringSystem.detect_anomalies_one,
      if_neg (by omega : ¬history.length < 5), if_pos hne, if_pos hgt1]
    by_cases hv : sample_variance (last10_counts history) > 0
    · rw [if_pos hv]
      by_cases hcond : ((sensor.vehicle_count : ℚ) -
          mean_count (last10_counts history)) ^ 2 >
          t ^ 2 * sample_variance (last10_counts history)
      · rw [if_pos hcond]
        have hreal := (zscore_sq_iff _ _ _ hv ht).mp hcond
        exact ⟨fun _ => ⟨hv, hreal⟩, fun _ => by simp⟩
      · rw [if_neg hcond]
        constructor
        · intro hco
          exact absurd rfl hco
        · rintro ⟨h1, h2⟩
          exact absurd ((zscore_sq_iff _ _ _ hv ht).mpr h2) hcond
    · rw [if_neg hv]
      constructor
      · intro hco
        exact absurd rfl hco
      · rintro ⟨h1, _⟩
        exact absurd h1 hv
  · intro t history sensor h5
    rw [TrafficMonitoringSystem.detect_anomalies_one, if_pos h5]
  · intro sys sensors
    unfold TrafficMonitoringSystem.process_sensor_data
    split_ifs with hs
    · subst hs
      rfl
    · rfl
  · simp [TrafficMonitoringSystem.detect_anomalies_one, history_nine, sensor_five,
      sensor_twenty, mean_count, sample_variance, last10_counts]
    norm_num

theorem detect_anomalies_zscore_rule_witness :
    TrafficMonitoringSystem.detect_anomalies_one 2 [] sensor_twenty = [] ∧
    (TrafficMonitoringSystem.detect_anomalies_one 2 history_nine sensor_twenty ≠ [] ↔
      0 < sample_variance (last10_counts history_nine) ∧
      ((2 : ℚ) : ℝ) <
        |(((sensor_twenty.vehicle_count : ℚ) -
            mean_count (last10_counts history_nine) : ℚ) : ℝ)| /
          Real.sqrt ((sample_variance (last10_counts history_nine) : ℚ) : ℝ)) :=
  ⟨detect_anomalies_zscore_rule.2.1 2 [] sensor_twenty (by simp),
   detect_anomalies_zscore_rule.1 2 history_nine sensor_twenty (by norm_num)
     (by simp [history_nine])⟩
